import Mathlib

/-!
Shallow embedding of the payment lifecycle and entitlement ledger of the
TelegramBotBR repository.

The repository holds two store implementations:
  * `bot.py` — class `DatabaseManager` over raw sqlite (namespace `Bot` here);
  * `database_manager.py` — class `DatabaseManager` over an ORM
    (namespace `Dbm` here).
The coordinator (`TelegramBotHandler` in `bot.py`) is wired to the `bot.py`
store.  `payment_manager.py`'s gateway client is identical, in the aspects
modelled here, to the `PaymentManager` class inside `bot.py`, so it is
defined once.

Timestamps are modelled as natural numbers (seconds); each call the Python
code makes to `datetime.now()` / `datetime.utcnow()` becomes an explicit
`Nat` parameter, so two distinct clock reads in the source become two
distinct parameters.  The Mercado Pago SDK call is modelled by its outcome:
`Except Unit MpResult`, where `Except.error ()` stands for a raised
exception and `Except.ok` carries the (possibly partial) response
dictionary, with absent dictionary keys as `Option.none`.
-/

/-- One row of the `payments` table (identical schema in both stores). -/
structure PaymentRecord where
  payment_id : Int
  user_id : Int
  username : String
  chat_id : Int
  pack_type : String
  status : String
  pix_code : String
  created_at : Nat
  approved_at : Option Nat
  expires_at : Option Nat
deriving Repr, DecidableEq

/-- `datetime.timedelta(days=30)` in seconds. -/
def thirtyDays : Nat := 30 * 86400

/-- Errors the storage layer can raise.  Only a duplicate-primary-key
insert (`IntegrityError` in `database_manager.py`) is ever raised by the
modelled code. -/
inductive DbError where
  | conflictError
deriving Repr, DecidableEq

/-- The `transaction_data` sub-dictionary of a Mercado Pago response. -/
structure TransactionData where
  qr_code : Option String
deriving Repr, DecidableEq

/-- The `point_of_interaction` sub-dictionary of a Mercado Pago response. -/
structure PointOfInteraction where
  transaction_data : Option TransactionData
deriving Repr, DecidableEq

/-- The `response` sub-dictionary of a Mercado Pago SDK result. -/
structure MpResponse where
  id : Option Int
  status : Option String
  point_of_interaction : Option PointOfInteraction
deriving Repr, DecidableEq

/-- A Mercado Pago SDK result dictionary (as used by the code: only the
`response` key is read). -/
structure MpResult where
  response : Option MpResponse
deriving Repr, DecidableEq

/-- Outcome of one SDK round trip: `Except.error ()` models a raised
exception, `Except.ok` a returned dictionary. -/
abbrev SdkResult := Except Unit MpResult

/-- `PaymentManager.create_payment` (identical in `bot.py` and
`payment_manager.py` in the modelled aspects): the SDK call is attempted
inside `try`; an exception is caught and `None` is returned, otherwise the
raw result dictionary is returned unchanged.  The request payload (amount,
expiration, payer) only flows into the gateway and is abstracted into the
`sdk` outcome parameter. -/
def create_payment (sdk : SdkResult) : Option MpResult :=
  match sdk with
  | Except.ok r => some r
  | Except.error _ => none

/-- `PaymentManager.check_payment_status` (identical in `bot.py` and
`payment_manager.py`): returns `result.get('response', {}).get('status')`
when truthy, else `None`.  An empty-string status is falsy in Python and
hence also yields `None`. -/
def check_payment_status (sdk : SdkResult) : Option String :=
  match sdk with
  | Except.error _ => none
  | Except.ok r =>
    match r.response with
    | none => none
    | some resp =>
      match resp.status with
      | none => none
      | some s => if s = "" then none else some s

/-- `DatabaseManager.get_user_active_packs` (same query in both stores):
`SELECT pack_type, expires_at FROM payments WHERE user_id = ? AND
status = 'approved' AND expires_at > now`.  A `NULL` `expires_at`
compares as not-greater, exactly as in SQL. -/
def get_user_active_packs (store : List PaymentRecord) (user_id : Int)
    (now : Nat) : List (String × Nat) :=
  store.filterMap (fun r =>
    match r.expires_at with
    | none => none
    | some e =>
      if r.user_id = user_id ∧ r.status = "approved" ∧ now < e then
        some (r.pack_type, e)
      else none)

/-- `bot.py` `DatabaseManager.save_payment`: `INSERT OR REPLACE INTO
payments ... VALUES (..., created_at, NULL, NULL)`.  sqlite's `REPLACE`
deletes any existing row with the same primary key and inserts the new
row; `created_at` is the current clock read and `approved_at`/`expires_at`
are inserted as `NULL` unconditionally. -/
def Bot.save_payment (store : List PaymentRecord) (payment_id user_id : Int)
    (username : String) (chat_id : Int) (pack_type pix_code status : String)
    (now : Nat) : List PaymentRecord :=
  store.filter (fun r => r.payment_id != payment_id) ++
    [{ payment_id := payment_id, user_id := user_id, username := username,
       chat_id := chat_id, pack_type := pack_type, status := status,
       pix_code := pix_code, created_at := now, approved_at := none,
       expires_at := none }]

/-- `bot.py` `DatabaseManager.update_payment_status`: a SQL `UPDATE ...
WHERE payment_id = ?`.  When the new status is `'approved'` a single clock
read `now` gives `approved_at`, and `expires_at = approved_at + 30 days`;
otherwise only `status` is written.  A missing `payment_id` simply updates
zero rows — no error is raised. -/
def Bot.update_payment_status (store : List PaymentRecord) (payment_id : Int)
    (status : String) (now : Nat) : List PaymentRecord :=
  store.map (fun r =>
    if r.payment_id = payment_id then
      if status = "approved" then
        { r with status := status, approved_at := some now,
                 expires_at := some (now + thirtyDays) }
      else
        { r with status := status }
    else r)

/-- `database_manager.py` `DatabaseManager.save_payment`: constructs a new
`Payment` (status defaulting to `'pending'`, `created_at` defaulting to
the current clock, approval timestamps unset) and inserts it.  Committing
a duplicate primary key raises `IntegrityError`, modelled as
`DbError.conflictError`. -/
def Dbm.save_payment (store : List PaymentRecord) (payment_id user_id : Int)
    (username : String) (chat_id : Int) (pack_type pix_code : String)
    (now : Nat) : Except DbError (List PaymentRecord) :=
  if store.any (fun r => r.payment_id == payment_id) then
    Except.error DbError.conflictError
  else
    Except.ok (store ++
      [{ payment_id := payment_id, user_id := user_id, username := username,
         chat_id := chat_id, pack_type := pack_type, status := "pending",
         pix_code := pix_code, created_at := now, approved_at := none,
         expires_at := none }])

/-- `database_manager.py` `DatabaseManager.update_payment_status`: fetches
the first record with the given `payment_id` (`query(...).first()`); if
none exists the function silently does nothing.  Otherwise it sets
`status`, and when the new status is `'approved'` it calls
`datetime.utcnow()` twice: `approved_at = utcnow()` (first read, `now1`)
and `expires_at = utcnow() + 30 days` (second read, `now2`). -/
def Dbm.update_payment_status : List PaymentRecord → Int → String → Nat →
    Nat → List PaymentRecord
  | [], _, _, _, _ => []
  | r :: rest, payment_id, status, now1, now2 =>
    if r.payment_id = payment_id then
      (if status = "approved" then
        { r with status := status, approved_at := some now1,
                 expires_at := some (now2 + thirtyDays) }
      else
        { r with status := status }) :: rest
    else r :: Dbm.update_payment_status rest payment_id status now1 now2

/-- The fields of a Telegram callback the handlers read: the requester's
user id, display name and chat id. -/
structure CallInfo where
  from_user_id : Int
  username : String
  chat_id : Int
deriving Repr, DecidableEq

/-- Result of `TelegramBotHandler.handle_pack_selection` as seen by the
user: either the payment id and PIX code are displayed, or an error
message is sent. -/
inductive PurchaseOutcome where
  | success (payment_id : Int) (pix_code : String)
  | failure
deriving Repr, DecidableEq

/-- Result of `TelegramBotHandler.handle_payment_verification` as seen by
the user: record not found, permission denied, or the resolved gateway
status handed to the message-template mapping (`none` = gateway gave no
usable status). -/
inductive VerifyOutcome where
  | notFound
  | authError
  | statusMsg (status : Option String)
deriving Repr, DecidableEq

/-- Result of `TelegramBotHandler.handle_callback`. -/
inductive CallbackOutcome where
  | packResult (o : PurchaseOutcome)
  | invalidPaymentId
  | verifyResult (o : VerifyOutcome)
  | ignored
deriving Repr, DecidableEq

/-- `TelegramBotHandler.handle_pack_selection` (`bot.py`): calls
`create_payment`; on a truthy result with a truthy `response` holding a
`point_of_interaction`, reads `qr_code` out of `transaction_data` (absent
sub-dictionary defaults to `{}`) and `id` out of the response; when both
are truthy (non-empty string, non-zero integer — Python truthiness) the
record is saved with `pack_type.lower()` and default status `'pending'`
via the `bot.py` store, else an error message is sent and nothing is
persisted. -/
def Bot.handle_pack_selection (store : List PaymentRecord) (sdk : SdkResult)
    (call : CallInfo) (pack_type : String) (now : Nat) :
    PurchaseOutcome × List PaymentRecord :=
  match create_payment sdk with
  | none => (PurchaseOutcome.failure, store)
  | some payment =>
    match payment.response with
    | none => (PurchaseOutcome.failure, store)
    | some resp =>
      match resp.point_of_interaction with
      | none => (PurchaseOutcome.failure, store)
      | some poi =>
        match (poi.transaction_data.getD ⟨none⟩).qr_code, resp.id with
        | some pix_code, some payment_id =>
          if pix_code ≠ "" ∧ payment_id ≠ 0 then
            (PurchaseOutcome.success payment_id pix_code,
             Bot.save_payment store payment_id call.from_user_id
               call.username call.chat_id pack_type.toLower pix_code
               "pending" now)
          else (PurchaseOutcome.failure, store)
        | _, _ => (PurchaseOutcome.failure, store)

/-- `TelegramBotHandler.handle_payment_verification` (`bot.py`): point
lookup of the record (`SELECT ... WHERE payment_id = ?`, first row); "not
found" message if absent; permission-denied message if the stored
`chat_id` or `user_id` differs from the requester's; otherwise queries the
gateway and, only when a truthy status differs from the stored one,
writes it through `Bot.update_payment_status`; finally the resolved
status drives the message mapping. -/
def Bot.handle_payment_verification (store : List PaymentRecord)
    (sdk : SdkResult) (req_user_id req_chat_id payment_id : Int)
    (now : Nat) : VerifyOutcome × List PaymentRecord :=
  match store.find? (fun r => r.payment_id == payment_id) with
  | none => (VerifyOutcome.notFound, store)
  | some rec =>
    if rec.chat_id ≠ req_chat_id ∨ rec.user_id ≠ req_user_id then
      (VerifyOutcome.authError, store)
    else
      match check_payment_status sdk with
      | none => (VerifyOutcome.statusMsg none, store)
      | some s =>
        if s ≠ rec.status then
          (VerifyOutcome.statusMsg (some s),
           Bot.update_payment_status store payment_id s now)
        else (VerifyOutcome.statusMsg (some s), store)

/-- Digit run of a Python integer literal body: one or more ASCII digits,
with single underscores allowed between digits (as accepted by Python's
`int`). -/
def pyDigitsAux : Nat → List Char → Option Nat
  | acc, [] => some acc
  | acc, c :: cs =>
    if c.isDigit then pyDigitsAux (acc * 10 + (c.toNat - 48)) cs
    else if c = '_' then
      match cs with
      | [] => none
      | c2 :: cs2 =>
        if c2.isDigit then pyDigitsAux (acc * 10 + (c2.toNat - 48)) cs2
        else none
    else none

/-- Nonempty digit run (first character must be a digit). -/
def pyDigits : List Char → Option Nat
  | [] => none
  | c :: cs => if c.isDigit then pyDigitsAux (c.toNat - 48) cs else none

/-- Python's built-in `int(str)` on a string given as its character list:
surrounding whitespace is stripped, an optional sign precedes a nonempty
digit run; anything else raises `ValueError`, modelled as `none`. -/
def pyInt (s : List Char) : Option Int :=
  let cs := ((s.dropWhile Char.isWhitespace).reverse.dropWhile
    Char.isWhitespace).reverse
  match cs with
  | '+' :: rest => (pyDigits rest).map Int.ofNat
  | '-' :: rest => (pyDigits rest).map (fun n => -(n : Int))
  | rest => (pyDigits rest).map Int.ofNat

/-- Python's `s.startswith(pat)` over character lists. -/
def listStartsWith : List Char → List Char → Bool
  | _, [] => true
  | [], _ :: _ => false
  | c :: cs, p :: ps => c == p && listStartsWith cs ps

/-- The characters strictly before the first (leftmost) occurrence of
`sep`, or the whole list when `sep` never occurs.  For a payload that
starts with `"verify_"`, Python's `callback_data.split("verify_")[1]` is
exactly `takeUntilSep "verify_".toList` of the characters after that
leading separator. -/
def takeUntilSep (sep : List Char) : List Char → List Char
  | [] => []
  | c :: cs => if listStartsWith (c :: cs) sep then [] else c :: takeUntilSep sep cs

/-- `TelegramBotHandler.handle_callback` (`bot.py`): dispatches on the
callback payload.  `"pack_basico"`/`"pack_premium"` trigger a purchase;
a payload starting with `"verify_"` has the text after the (first run of)
separator — `callback_data.split("verify_")[1]` — parsed with `int`; a
`ValueError` sends an invalid-payment-id message and returns before any
store or gateway access; otherwise verification runs.  Any other payload
falls through. -/
def Bot.handle_callback (store : List PaymentRecord) (sdk : SdkResult)
    (call : CallInfo) (data : String) (now : Nat) :
    CallbackOutcome × List PaymentRecord :=
  if data = "pack_basico" then
    let r := Bot.handle_pack_selection store sdk call "Básico" now
    (CallbackOutcome.packResult r.1, r.2)
  else if data = "pack_premium" then
    let r := Bot.handle_pack_selection store sdk call "Premium" now
    (CallbackOutcome.packResult r.1, r.2)
  else if listStartsWith data.toList "verify_".toList then
    match pyInt (takeUntilSep "verify_".toList (data.toList.drop 7)) with
    | none => (CallbackOutcome.invalidPaymentId, store)
    | some payment_id =>
      let r := Bot.handle_payment_verification store sdk call.from_user_id
        call.chat_id payment_id now
      (CallbackOutcome.verifyResult r.1, r.2)
  else (CallbackOutcome.ignored, store)

/-- The branch condition under which `handle_pack_selection` reaches the
persisting branch, as a predicate on a returned SDK dictionary: truthy
`response`, present `point_of_interaction`, truthy `qr_code` and truthy
`id`. -/
def mpCreateOk (m : MpResult) : Bool :=
  match m.response with
  | none => false
  | some resp =>
    match resp.point_of_interaction with
    | none => false
    | some poi =>
      match (poi.transaction_data.getD ⟨none⟩).qr_code, resp.id with
      | some pix_code, some payment_id => pix_code != "" && payment_id != 0
      | _, _ => false

/-! ### Helper lemmas -/

/-- A map whose function fixes every element of the list is the identity
on that list. -/
theorem map_eq_self_of_fix {α : Type} (f : α → α) :
    ∀ (l : List α), (∀ a ∈ l, f a = a) → l.map f = l
  | [], _ => rfl
  | a :: t, h => by
    rw [List.map_cons, h a (List.mem_cons_self a t),
      map_eq_self_of_fix f t (fun x hx => h x (List.mem_cons_of_mem a hx))]

/-- `find?` commutes with a `map` whose function preserves the predicate. -/
theorem find_map_of_pred_fix {α : Type} (f : α → α) (p : α → Bool)
    (hp : ∀ a, p (f a) = p a) :
    ∀ (l : List α), (l.map f).find? p = (l.find? p).map f
  | [] => rfl
  | a :: t => by
    rw [List.map_cons]
    cases ha : p a with
    | true =>
      rw [List.find?_cons_of_pos (List.map f t) ((hp a).trans ha),
        List.find?_cons_of_pos t ha]
      rfl
    | false =>
      rw [List.find?_cons_of_neg (List.map f t) (by simp [hp a, ha]),
        List.find?_cons_of_neg t (by simp [ha]),
        find_map_of_pred_fix f p hp t]

/-- `database_manager.py`'s `update_payment_status` leaves the store
untouched when no record carries the given `payment_id`. -/
theorem dbm_update_eq_self :
    ∀ (store : List PaymentRecord) (payment_id : Int) (s : String)
      (t1 t2 : Nat), (∀ r ∈ store, r.payment_id ≠ payment_id) →
      Dbm.update_payment_status store payment_id s t1 t2 = store
  | [], _, _, _, _, _ => rfl
  | r :: rest, pid, s, t1, t2, h => by
    have hr : r.payment_id ≠ pid := h r (List.mem_cons_self r rest)
    rw [Dbm.update_payment_status, if_neg hr,
      dbm_update_eq_self rest pid s t1 t2
        (fun x hx => h x (List.mem_cons_of_mem r hx))]

/-! ### Claims -/

/-- C1 (amended): in `database_manager.py`, saving a payment whose
`payment_id` is already present fails with a conflict error
(`IntegrityError` on the duplicate primary key) and produces no new
store.  (The `bot.py` store instead overwrites; see the counterexample.) -/
theorem c1_dbm_save_conflict (store : List PaymentRecord) (pid uid : Int)
    (un : String) (cid : Int) (pt pix : String) (now : Nat)
    (h : ∃ r ∈ store, r.payment_id = pid) :
    Dbm.save_payment store pid uid un cid pt pix now =
      Except.error DbError.conflictError := by
  have hany : store.any (fun r => r.payment_id == pid) = true := by
    rcases h with ⟨r, hr, hpid⟩
    exact List.any_eq_true.mpr ⟨r, hr, by simp [hpid]⟩
  rw [Dbm.save_payment, if_pos hany]

/-- C1 witness: a concrete duplicate insert into the
`database_manager.py` store is rejected with the conflict error. -/
theorem c1_witness :
    (∃ r ∈ [(⟨1, 7, "u", 9, "basic", "approved", "OLD", 100, some 100,
      some 2692000⟩ : PaymentRecord)], r.payment_id = 1) ∧
    Dbm.save_payment
      [⟨1, 7, "u", 9, "basic", "approved", "OLD", 100, some 100,
        some 2692000⟩] 1 7 "u" 9 "basic" "NEW" 200 =
      Except.error DbError.conflictError :=
  ⟨⟨_, List.mem_singleton.mpr rfl, rfl⟩,
   c1_dbm_save_conflict _ 1 7 "u" 9 "basic" "NEW" 200
     ⟨_, List.mem_singleton.mpr rfl, rfl⟩⟩

/-- C1 counterexample: `bot.py`'s `save_payment` (`INSERT OR REPLACE`) at
an already present `payment_id` overwrites the row — `created_at` 100
becomes 200, `pix_code` `"OLD"` becomes `"NEW"`, and the approval
timestamps are wiped — contradicting "it never overwrites the existing
record". -/
theorem c1_counterexample :
    Bot.save_payment
      [⟨1, 7, "u", 9, "basic", "approved", "OLD", 100, some 100,
        some 2692000⟩] 1 7 "u" 9 "basic" "NEW" "pending" 200 =
      [⟨1, 7, "u", 9, "basic", "pending", "NEW", 200, none, none⟩] := by
  decide

/-- C2 (amended): in `bot.py`, every record carrying the target
`payment_id` after `update_payment_status(id, 'approved')` has
`status = 'approved'`, `approved_at = now` and
`expires_at = now + 30 days` — so `expires_at - approved_at` is exactly
30 days.  (The `database_manager.py` variant reads the clock twice; see
the counterexample.) -/
theorem c2_bot_thirty_days (store : List PaymentRecord) (pid : Int)
    (now : Nat) (r : PaymentRecord)
    (hmem : r ∈ Bot.update_payment_status store pid "approved" now)
    (hpid : r.payment_id = pid) :
    r.status = "approved" ∧ r.approved_at = some now ∧
      r.expires_at = some (now + thirtyDays) := by
  rw [Bot.update_payment_status] at hmem
  rcases List.mem_map.mp hmem with ⟨x, hx, hfx⟩
  by_cases hxp : x.payment_id = pid
  · rw [if_pos hxp, if_pos rfl] at hfx
    rw [← hfx]
    exact ⟨rfl, rfl, rfl⟩
  · rw [if_neg hxp] at hfx
    rw [← hfx] at hpid
    exact absurd hpid hxp

/-- C2 witness: updating a concrete pending record to approved at clock
1000 yields the 30-day expiry pair. -/
theorem c2_witness :
    (⟨1, 7, "u", 9, "basic", "approved", "P", 50, some 1000,
      some (1000 + thirtyDays)⟩ : PaymentRecord) ∈
      Bot.update_payment_status
        [⟨1, 7, "u", 9, "basic", "pending", "P", 50, none, none⟩]
        1 "approved" 1000 ∧
    ((⟨1, 7, "u", 9, "basic", "approved", "P", 50, some 1000,
      some (1000 + thirtyDays)⟩ : PaymentRecord).status = "approved" ∧
     (⟨1, 7, "u", 9, "basic", "approved", "P", 50, some 1000,
      some (1000 + thirtyDays)⟩ : PaymentRecord).approved_at = some 1000 ∧
     (⟨1, 7, "u", 9, "basic", "approved", "P", 50, some 1000,
      some (1000 + thirtyDays)⟩ : PaymentRecord).expires_at =
        some (1000 + thirtyDays)) :=
  ⟨by decide,
   c2_bot_thirty_days
     [⟨1, 7, "u", 9, "basic", "pending", "P", 50, none, none⟩]
     1 1000 _ (by decide) rfl⟩

/-- C2 counterexample: `database_manager.py`'s `update_payment_status`
calls `utcnow()` once for `approved_at` and again for `expires_at`; with
the clock advancing one second between the reads (1000, then 1001) the
stored pair satisfies `expires_at - approved_at = 30 days + 1 second`,
not exactly 30 days. -/
theorem c2_counterexample :
    Dbm.update_payment_status
      [⟨1, 7, "u", 9, "basic", "pending", "P", 50, none, none⟩]
      1 "approved" 1000 1001 =
      [⟨1, 7, "u", 9, "basic", "approved", "P", 50, some 1000,
        some (1001 + thirtyDays)⟩] ∧
    (1001 + thirtyDays) - 1000 ≠ thirtyDays := by
  decide

/-- C4 (amended): for a `payment_id` absent from the store, verification
reports not-found and performs no write (for every gateway outcome), and
`update_payment_status` — in both stores — completes normally as a
silent no-op leaving the store unchanged, rather than failing with
`NotFoundError`. -/
theorem c4_missing_id (store : List PaymentRecord) (pid ru rc : Int)
    (s : String) (sdk : SdkResult) (now t1 t2 : Nat)
    (h : ∀ r ∈ store, r.payment_id ≠ pid) :
    Bot.handle_payment_verification store sdk ru rc pid now =
      (VerifyOutcome.notFound, store) ∧
    Bot.update_payment_status store pid s now = store ∧
    Dbm.update_payment_status store pid s t1 t2 = store := by
  have hfind : store.find? (fun r => r.payment_id == pid) = none :=
    List.find?_eq_none.mpr (fun r hr => by simp [h r hr])
  refine ⟨?_, ?_, dbm_update_eq_self store pid s t1 t2 h⟩
  · rw [Bot.handle_payment_verification, hfind]
  · rw [Bot.update_payment_status]
    exact map_eq_self_of_fix _ store (fun r hr => if_neg (h r hr))

/-- C4 witness: with an empty store, verifying or updating payment 1
reports not-found / silently no-ops. -/
theorem c4_witness :
    (∀ r ∈ ([] : List PaymentRecord), r.payment_id ≠ 1) ∧
    (Bot.handle_payment_verification [] (Except.error ()) 7 9 1 0 =
      (VerifyOutcome.notFound, []) ∧
     Bot.update_payment_status [] 1 "approved" 0 = [] ∧
     Dbm.update_payment_status [] 1 "approved" 0 0 = []) :=
  ⟨fun r hr => absurd hr (List.not_mem_nil r),
   c4_missing_id [] 1 7 9 "approved" (Except.error ()) 0 0 0
     (fun r hr => absurd hr (List.not_mem_nil r))⟩

/-- C4 counterexample: `update_payment_status` on an absent `payment_id`
does not fail with `NotFoundError` in either store — both functions are
total, raise nothing (the raw-SQL `UPDATE` matches zero rows, and the ORM
variant guards with `if payment:` and otherwise does nothing), and return
the store unchanged. -/
theorem c4_counterexample :
    Bot.update_payment_status [] 1 "approved" 0 = [] ∧
    Dbm.update_payment_status [] 1 "approved" 0 0 = [] := ⟨rfl, rfl⟩

/-- C6: `get_user_active_packs` returns `(pack_type, expires_at)` exactly
for the stored records of the given user with status `'approved'` and
`expires_at` strictly in the future; in particular no returned pair has
`expires_at ≤ now`. -/
theorem c6_active_packs (store : List PaymentRecord) (uid : Int) (now : Nat)
    (pt : String) (e : Nat) :
    (pt, e) ∈ get_user_active_packs store uid now ↔
      ∃ r ∈ store, r.user_id = uid ∧ r.status = "approved" ∧
        r.pack_type = pt ∧ r.expires_at = some e ∧ now < e := by
  rw [get_user_active_packs, List.mem_filterMap]
  constructor
  · rintro ⟨r, hr, hf⟩
    split at hf
    · exact absurd hf (by simp)
    · rename_i e2 hx
      split at hf
      · rename_i hc
        have hpe := Option.some.inj hf
        have hpt : r.pack_type = pt := congrArg Prod.fst hpe
        have he : e2 = e := congrArg Prod.snd hpe
        exact ⟨r, hr, hc.1, hc.2.1, hpt, he ▸ hx, he ▸ hc.2.2⟩
      · exact absurd hf (by simp)
  · rintro ⟨r, hr, h1, h2, h3, h4, h5⟩
    exact ⟨r, hr, by simp [h4, h1, h2, h3, h5]⟩

/-- C3: when the stored record's `chat_id` or `user_id` differs from the
requester's, verification answers permission-denied (not a crash), the
store is returned unchanged, and the result is the same for every gateway
outcome — no gateway query influences it and no status change is
written. -/
theorem c3_auth_denied (store : List PaymentRecord) (ru rc pid : Int)
    (rec : PaymentRecord)
    (hfind : store.find? (fun r => r.payment_id == pid) = some rec)
    (hmm : rec.chat_id ≠ rc ∨ rec.user_id ≠ ru) :
    ∀ (sdk : SdkResult) (now : Nat),
      Bot.handle_payment_verification store sdk ru rc pid now =
        (VerifyOutcome.authError, store) := by
  intro sdk now
  unfold Bot.handle_payment_verification
  simp only [hfind]
  rw [if_pos hmm]

/-- C3 witness: user 8 asking about user 7's payment (right chat, wrong
user) is denied, with the store untouched. -/
theorem c3_witness :
    (([⟨1, 7, "u", 9, "basic", "pending", "P", 50, none, none⟩] :
      List PaymentRecord).find? (fun r => r.payment_id == 1) =
      some ⟨1, 7, "u", 9, "basic", "pending", "P", 50, none, none⟩ ∧
     ((⟨1, 7, "u", 9, "basic", "pending", "P", 50, none, none⟩ :
      PaymentRecord).chat_id ≠ 9 ∨
      (⟨1, 7, "u", 9, "basic", "pending", "P", 50, none, none⟩ :
      PaymentRecord).user_id ≠ 8)) ∧
    Bot.handle_payment_verification
      [⟨1, 7, "u", 9, "basic", "pending", "P", 50, none, none⟩]
      (Except.error ()) 8 9 1 0 =
      (VerifyOutcome.authError,
       [⟨1, 7, "u", 9, "basic", "pending", "P", 50, none, none⟩]) :=
  ⟨⟨by decide, Or.inr (by decide)⟩,
   c3_auth_denied [⟨1, 7, "u", 9, "basic", "pending", "P", 50, none, none⟩]
     8 9 1 ⟨1, 7, "u", 9, "basic", "pending", "P", 50, none, none⟩
     (by decide) (Or.inr (by decide)) (Except.error ()) 0⟩

/-- C5: whenever the gateway create step fails — the SDK call raises, or
the returned dictionary misses/falsifies `response`,
`point_of_interaction`, `qr_code` or `id` — `handle_pack_selection`
reports failure and leaves the store exactly as it was: no record is
persisted. -/
theorem c5_gateway_failure (store : List PaymentRecord) (sdk : SdkResult)
    (call : CallInfo) (pack_type : String) (now : Nat)
    (h : ∀ m, sdk = Except.ok m → mpCreateOk m = false) :
    Bot.handle_pack_selection store sdk call pack_type now =
      (PurchaseOutcome.failure, store) := by
  cases sdk with
  | error e => rfl
  | ok m =>
    have hm := h m rfl
    obtain ⟨resp⟩ := m
    cases resp with
    | none => rfl
    | some resp2 =>
      obtain ⟨id, st, poi⟩ := resp2
      cases poi with
      | none => rfl
      | some poi2 =>
        obtain ⟨td⟩ := poi2
        cases td with
        | none => cases id with | none => rfl | some pid => rfl
        | some td2 =>
          obtain ⟨qr⟩ := td2
          cases qr with
          | none => cases id with | none => rfl | some pid => rfl
          | some pix =>
            cases id with
            | none => rfl
            | some pid =>
              simp only [mpCreateOk, Option.getD_some] at hm
              have hcond : ¬ (pix ≠ "" ∧ pid ≠ 0) := by
                intro hc
                rw [bne_iff_ne.mpr hc.1, bne_iff_ne.mpr hc.2] at hm
                exact absurd hm (by decide)
              exact if_neg hcond

/-- C5 witness: the SDK raising an exception yields a failure result and
an unchanged (empty) store. -/
theorem c5_witness :
    (∀ m : MpResult, (Except.error () : SdkResult) = Except.ok m →
      mpCreateOk m = false) ∧
    Bot.handle_pack_selection [] (Except.error ()) ⟨7, "u", 9⟩ "Básico" 0 =
      (PurchaseOutcome.failure, []) :=
  ⟨(fun _ hm => nomatch hm),
   c5_gateway_failure [] (Except.error ()) ⟨7, "u", 9⟩ "Básico" 0
     (fun _ hm => nomatch hm)⟩

/-- C7: a successful create — non-empty provider PIX code, non-zero
provider payment id, and a `payment_id` not already stored — persists
exactly one new record: status `'pending'`, `pix_code` the provider code,
`created_at` the current clock, and null `approved_at`/`expires_at`. -/
theorem c7_success_persists (store : List PaymentRecord) (st : Option String)
    (pix : String) (pid : Int) (call : CallInfo) (pack_type : String)
    (now : Nat) (hpix : pix ≠ "") (hpid : pid ≠ 0)
    (hfresh : ∀ r ∈ store, r.payment_id ≠ pid) :
    Bot.handle_pack_selection store
      (Except.ok ⟨some ⟨some pid, st, some ⟨some ⟨some pix⟩⟩⟩⟩) call
      pack_type now =
      (PurchaseOutcome.success pid pix,
       store ++ [⟨pid, call.from_user_id, call.username, call.chat_id,
         pack_type.toLower, "pending", pix, now, none, none⟩]) := by
  have hfilter : store.filter (fun r => r.payment_id != pid) = store :=
    List.filter_eq_self.mpr (fun r hr => by simp [hfresh r hr])
  have hstep : Bot.handle_pack_selection store
      (Except.ok ⟨some ⟨some pid, st, some ⟨some ⟨some pix⟩⟩⟩⟩) call
      pack_type now =
      (PurchaseOutcome.success pid pix,
       Bot.save_payment store pid call.from_user_id call.username
         call.chat_id pack_type.toLower pix "pending" now) :=
    if_pos ⟨hpix, hpid⟩
  rw [hstep]
  simp only [Bot.save_payment, hfilter]

/-- C7 witness: a concrete successful purchase into an empty store. -/
theorem c7_witness :
    ("PIX" ≠ "" ∧ (123456 : Int) ≠ 0 ∧
      (∀ r ∈ ([] : List PaymentRecord), r.payment_id ≠ 123456)) ∧
    Bot.handle_pack_selection []
      (Except.ok ⟨some ⟨some 123456, some "pending",
        some ⟨some ⟨some "PIX"⟩⟩⟩⟩) ⟨7, "u", 9⟩ "Básico" 0 =
      (PurchaseOutcome.success 123456 "PIX",
       [] ++ [⟨123456, 7, "u", 9, "Básico".toLower, "pending", "PIX", 0,
         none, none⟩]) :=
  ⟨⟨by decide, by decide, fun r hr => absurd hr (List.not_mem_nil r)⟩,
   c7_success_persists [] (some "pending") "PIX" 123456 ⟨7, "u", 9⟩
     "Básico" 0 (by decide) (by decide)
     (fun r hr => absurd hr (List.not_mem_nil r))⟩

/-- C10: a callback payload that starts with `"verify_"` but whose
following text is not parseable by Python's `int` makes the handler
answer "invalid payment id" and return before anything else happens: the
store is returned unchanged and the result does not depend on the store
content or on the gateway (both are universally quantified), so no store
read/write and no gateway call occurs. -/
theorem c10_invalid_payload (store : List PaymentRecord) (sdk : SdkResult)
    (call : CallInfo) (data : String) (now : Nat)
    (hpre : listStartsWith data.toList "verify_".toList = true)
    (hparse : pyInt (takeUntilSep "verify_".toList (data.toList.drop 7)) =
      none) :
    Bot.handle_callback store sdk call data now =
      (CallbackOutcome.invalidPaymentId, store) := by
  have h1 : ¬ data = "pack_basico" := by
    rintro rfl; exact absurd hpre (by decide)
  have h2 : ¬ data = "pack_premium" := by
    rintro rfl; exact absurd hpre (by decide)
  unfold Bot.handle_callback
  rw [if_neg h1, if_neg h2, if_pos hpre]
  simp only [hparse]

/-- C10 witness: payload `"verify_abc"` is reported invalid and touches
nothing. -/
theorem c10_witness :
    (listStartsWith "verify_abc".toList "verify_".toList = true ∧
     pyInt (takeUntilSep "verify_".toList ("verify_abc".toList.drop 7)) =
       none) ∧
    Bot.handle_callback [] (Except.error ()) ⟨7, "u", 9⟩ "verify_abc" 0 =
      (CallbackOutcome.invalidPaymentId, []) :=
  ⟨⟨by decide, by decide⟩,
   c10_invalid_payload [] (Except.error ()) ⟨7, "u", 9⟩ "verify_abc" 0
     (by decide) (by decide)⟩

/-- The `find?` used by verification, after a `bot.py` status update for
the same `payment_id`, returns the image of the originally found record
under the per-row update. -/
theorem find_after_update (store : List PaymentRecord) (pid : Int)
    (s : String) (t : Nat) :
    (Bot.update_payment_status store pid s t).find?
        (fun r => r.payment_id == pid) =
      (store.find? (fun r => r.payment_id == pid)).map (fun r =>
        if r.payment_id = pid then
          if s = "approved" then
            { r with status := s, approved_at := some t,
                     expires_at := some (t + thirtyDays) }
          else { r with status := s }
        else r) :=
  find_map_of_pred_fix _ _
    (fun r => by
      by_cases h : r.payment_id = pid <;> by_cases h2 : s = "approved" <;>
        simp [h, h2])
    store

/-- C8: two verification passes in immediate succession, with the gateway
reporting the same outcome both times, leave the store after the second
pass exactly equal to the store after the first — the second pass never
mutates the approval timestamps again, because the handler skips the
write when the reported status equals the stored one. -/
theorem c8_verify_idempotent (store : List PaymentRecord) (sdk : SdkResult)
    (ru rc pid : Int) (t1 t2 : Nat) :
    (Bot.handle_payment_verification
        (Bot.handle_payment_verification store sdk ru rc pid t1).2
        sdk ru rc pid t2).2 =
      (Bot.handle_payment_verification store sdk ru rc pid t1).2 := by
  cases hf : store.find? (fun r => r.payment_id == pid) with
  | none =>
    have h1 : Bot.handle_payment_verification store sdk ru rc pid t1 =
        (VerifyOutcome.notFound, store) := by
      unfold Bot.handle_payment_verification; simp only [hf]
    rw [h1]
    show (Bot.handle_payment_verification store sdk ru rc pid t2).2 = store
    unfold Bot.handle_payment_verification; simp only [hf]
  | some rec =>
    by_cases hauth : rec.chat_id ≠ rc ∨ rec.user_id ≠ ru
    · have h1 : Bot.handle_payment_verification store sdk ru rc pid t1 =
          (VerifyOutcome.authError, store) := by
        unfold Bot.handle_payment_verification; simp only [hf]
        rw [if_pos hauth]
      rw [h1]
      show (Bot.handle_payment_verification store sdk ru rc pid t2).2 = store
      unfold Bot.handle_payment_verification; simp only [hf]
      rw [if_pos hauth]
    · cases hchk : check_payment_status sdk with
      | none =>
        have h1 : Bot.handle_payment_verification store sdk ru rc pid t1 =
            (VerifyOutcome.statusMsg none, store) := by
          unfold Bot.handle_payment_verification; simp only [hf]
          rw [if_neg hauth]; simp only [hchk]
        rw [h1]
        show (Bot.handle_payment_verification store sdk ru rc pid t2).2 =
          store
        unfold Bot.handle_payment_verification; simp only [hf]
        rw [if_neg hauth]; simp only [hchk]
      | some s =>
        by_cases hs : s ≠ rec.status
        · have hrecpid : rec.payment_id = pid := by
            have := List.find?_some hf; simpa using this
          have h1 : Bot.handle_payment_verification store sdk ru rc pid t1 =
              (VerifyOutcome.statusMsg (some s),
               Bot.update_payment_status store pid s t1) := by
            unfold Bot.handle_payment_verification; simp only [hf]
            rw [if_neg hauth]; simp only [hchk]; rw [if_pos hs]
          rw [h1]
          show (Bot.handle_payment_verification
              (Bot.update_payment_status store pid s t1) sdk ru rc pid
              t2).2 = Bot.update_payment_status store pid s t1
          have hfind2 := find_after_update store pid s t1
          rw [hf] at hfind2
          simp only [Option.map_some'] at hfind2
          rw [if_pos hrecpid] at hfind2
          by_cases hA : s = "approved"
          · rw [if_pos hA] at hfind2
            unfold Bot.handle_payment_verification
            simp only [hfind2]
            by_cases hc :
              ({ rec with
                  status := s,
                  approved_at := some t1,
                  expires_at := some (t1 + thirtyDays) } :
                PaymentRecord).chat_id ≠ rc ∨
              ({ rec with
                  status := s,
                  approved_at := some t1,
                  expires_at := some (t1 + thirtyDays) } :
                PaymentRecord).user_id ≠ ru
            · rw [if_pos hc]
            · rw [if_neg hc]; simp only [hchk]
              rw [if_neg (fun hbad => hbad rfl :
                ¬ s ≠ ({ rec with
                    status := s,
                    approved_at := some t1,
                    expires_at := some (t1 + thirtyDays) } :
                  PaymentRecord).status)]
          · rw [if_neg hA] at hfind2
            unfold Bot.handle_payment_verification
            simp only [hfind2]
            by_cases hc :
              ({ rec with status := s } : PaymentRecord).chat_id ≠ rc ∨
              ({ rec with status := s } : PaymentRecord).user_id ≠ ru
            · rw [if_pos hc]
            · rw [if_neg hc]; simp only [hchk]
              rw [if_neg (fun hbad => hbad rfl :
                ¬ s ≠ ({ rec with status := s } : PaymentRecord).status)]
        · have h1 : Bot.handle_payment_verification store sdk ru rc pid t1 =
              (VerifyOutcome.statusMsg (some s), store) := by
            unfold Bot.handle_payment_verification; simp only [hf]
            rw [if_neg hauth]; simp only [hchk]; rw [if_neg hs]
          rw [h1]
          show (Bot.handle_payment_verification store sdk ru rc pid t2).2 =
            store
          unfold Bot.handle_payment_verification; simp only [hf]
          rw [if_neg hauth]; simp only [hchk]; rw [if_neg hs]

/-- C9 (amended): the status verification persists is not constrained to
the five enumerated states — it is the raw gateway string.  What does
hold: every record's status after a verification pass is either a status
that was already stored, or exactly the string the gateway reported
(`check_payment_status` result), passed through verbatim. -/
theorem c9_raw_status (store : List PaymentRecord) (sdk : SdkResult)
    (ru rc pid : Int) (now : Nat) (r2 : PaymentRecord)
    (hmem : r2 ∈ (Bot.handle_payment_verification store sdk ru rc pid
      now).2) :
    r2.status ∈ store.map PaymentRecord.status ∨
      check_payment_status sdk = some r2.status := by
  cases hf : store.find? (fun r => r.payment_id == pid) with
  | none =>
    have h1 : (Bot.handle_payment_verification store sdk ru rc pid
        now).2 = store := by
      unfold Bot.handle_payment_verification; simp only [hf]
    rw [h1] at hmem
    exact Or.inl (List.mem_map.mpr ⟨r2, hmem, rfl⟩)
  | some rec =>
    by_cases hauth : rec.chat_id ≠ rc ∨ rec.user_id ≠ ru
    · have h1 : (Bot.handle_payment_verification store sdk ru rc pid
          now).2 = store := by
        unfold Bot.handle_payment_verification; simp only [hf]
        rw [if_pos hauth]
      rw [h1] at hmem
      exact Or.inl (List.mem_map.mpr ⟨r2, hmem, rfl⟩)
    · cases hchk : check_payment_status sdk with
      | none =>
        have h1 : (Bot.handle_payment_verification store sdk ru rc pid
            now).2 = store := by
          unfold Bot.handle_payment_verification; simp only [hf]
          rw [if_neg hauth]; simp only [hchk]
        rw [h1] at hmem
        exact Or.inl (List.mem_map.mpr ⟨r2, hmem, rfl⟩)
      | some s =>
        by_cases hs : s ≠ rec.status
        · have h1 : (Bot.handle_payment_verification store sdk ru rc pid
              now).2 = Bot.update_payment_status store pid s now := by
            unfold Bot.handle_payment_verification; simp only [hf]
            rw [if_neg hauth]; simp only [hchk]; rw [if_pos hs]
          rw [h1, Bot.update_payment_status] at hmem
          rcases List.mem_map.mp hmem with ⟨x, hx, hfx⟩
          by_cases hxp : x.payment_id = pid
          · right
            have hst : r2.status = s := by
              rw [← hfx, if_pos hxp]
              by_cases hA : s = "approved"
              · rw [if_pos hA]
              · rw [if_neg hA]
            rw [hst]
          · left
            rw [← hfx, if_neg hxp]
            exact List.mem_map.mpr ⟨x, hx, rfl⟩
        · have h1 : (Bot.handle_payment_verification store sdk ru rc pid
              now).2 = store := by
            unfold Bot.handle_payment_verification; simp only [hf]
            rw [if_neg hauth]; simp only [hchk]; rw [if_neg hs]
          rw [h1] at hmem
          exact Or.inl (List.mem_map.mpr ⟨r2, hmem, rfl⟩)

/-- C9 witness: after the gateway reports `"in_process"` for a pending
record, the stored record's status is exactly the reported raw string. -/
theorem c9_witness :
    (⟨1, 7, "u", 9, "basic", "in_process", "P", 50, none, none⟩ :
      PaymentRecord) ∈
      (Bot.handle_payment_verification
        [⟨1, 7, "u", 9, "basic", "pending", "P", 50, none, none⟩]
        (Except.ok ⟨some ⟨some 1, some "in_process", none⟩⟩) 7 9 1 60).2 ∧
    ((⟨1, 7, "u", 9, "basic", "in_process", "P", 50, none, none⟩ :
       PaymentRecord).status ∈
       ([⟨1, 7, "u", 9, "basic", "pending", "P", 50, none, none⟩] :
         List PaymentRecord).map PaymentRecord.status ∨
     check_payment_status
       (Except.ok ⟨some ⟨some 1, some "in_process", none⟩⟩) =
       some (⟨1, 7, "u", 9, "basic", "in_process", "P", 50, none, none⟩ :
         PaymentRecord).status) :=
  ⟨by decide,
   c9_raw_status
     [⟨1, 7, "u", 9, "basic", "pending", "P", 50, none, none⟩]
     (Except.ok ⟨some ⟨some 1, some "in_process", none⟩⟩) 7 9 1 60
     ⟨1, 7, "u", 9, "basic", "in_process", "P", 50, none, none⟩
     (by decide)⟩

/-- C9 counterexample: the gateway reporting `"in_process"` (a real
Mercado Pago status outside the five enumerated states) is persisted
verbatim into the record's status field, so the stored value is not
confined to `pending`/`approved`/`rejected`/`cancelled`/`unknown`. -/
theorem c9_counterexample :
    (Bot.handle_payment_verification
        [⟨1, 7, "u", 9, "basic", "pending", "P", 50, none, none⟩]
        (Except.ok ⟨some ⟨some 1, some "in_process", none⟩⟩) 7 9 1 60).2 =
      [⟨1, 7, "u", 9, "basic", "in_process", "P", 50, none, none⟩] ∧
    ¬ "in_process" ∈
      ["pending", "approved", "rejected", "cancelled", "unknown"] := by
  decide
